import Mathlib

/-!
# Verification of the Knights/Knaves/Monks puzzle generator core

Shallow embedding of `src/package/puzzle_generator.py` (the evolved version of
the design) together with the points where `src/puzzle_generator.py` (the root
version) differs.  Python dictionaries keyed by character name are modelled as
insertion-ordered association lists with unique keys; Python exceptions are
modelled with `Except`.
-/

namespace PuzzleGen

/-- The three identity classes `Knight`, `Monk`, `Knave` (subclasses of
`Character` in the source).  Each is a stateless singleton, so an enumeration
is a faithful model of the set of class objects. -/
inductive Character
  | Knight
  | Monk
  | Knave
deriving DecidableEq, Repr, BEq

/-- `truth_quantifier` class attribute: Knight `1`, Monk `0`, Knave `-1`. -/
def truthQuantifier : Character → Int
  | .Knight => 1
  | .Monk => 0
  | .Knave => -1

/-- `short_identifier` class attribute: `'K'`, `'M'`, `'V'`. -/
def shortIdentifier : Character → String
  | .Knight => "K"
  | .Monk => "M"
  | .Knave => "V"

/-- The comparison relations from Python's `operator` module that the source
passes around as `claimed_relation` (`operator.eq/lt/gt/le/ge`). -/
inductive Rel
  | eq
  | lt
  | gt
  | le
  | ge
deriving DecidableEq, Repr

/-- Applying an `operator` relation to two integers. -/
def evalRel : Rel → Int → Int → Bool
  | .eq, a, b => a = b
  | .lt, a, b => a < b
  | .gt, a, b => a > b
  | .le, a, b => a ≤ b
  | .ge, a, b => a ≥ b

/-- The closed set of `Statement` subclasses of the source as an expression
tree.  `conjunctive` is `ConjunctiveStatement`, `disjunctive` is
`DisjunctiveStatement`, `notS` is `Not`, `ifConnective` is `IfConnective`,
`exclusiveOr` is `ExclusiveOrConnective`. -/
inductive Stmt
  | trueStatement
  | isOfType (targetName : String) (claimed : Character)
  | isSameAs (target1 target2 : String)
  | honesty (target1 target2 : String) (claimedRelation : Rel)
  | countOfType (characterType : Character) (claimedCount : Int) (claimedRelation : Rel)
  | samenessCount (claimedCount : Int) (claimedRelation : Rel)
  | conjunctive (statements : List Stmt)
  | disjunctive (statements : List Stmt)
  | notS (statement : Stmt)
  | ifConnective (a b : Stmt)
  | exclusiveOr (a b : Stmt)

/-- The Python exceptions the core can raise while evaluating:
`CharacterIdentifierError` (raised by statement lookups of an unknown name)
and a raw `KeyError` (raised by `self.character_types[character_name]` in
`Scenario._check_consistency` when the scenario lacks a speaker). -/
inductive PyError
  | characterIdentifier (name : String)
  | keyError (name : String)
deriving DecidableEq, Repr

/-- A `Scenario`'s `character_types` dictionary: an insertion-ordered mapping
from character name to identity class. -/
abbrev Scenario := List (String × Character)

/-- Number of values equal to `character_type` in the scenario's dictionary
(the counting loop of `CountOfType.evaluate_truth`). -/
def countOfTypeIn (sc : Scenario) (characterType : Character) : Nat :=
  sc.countP (fun e => decide (e.2 = characterType))

instance {ε α : Type} [DecidableEq ε] [DecidableEq α] : DecidableEq (Except ε α)
  | .ok a, .ok b => decidable_of_iff (a = b) (by simp)
  | .ok _, .error _ => .isFalse (by simp)
  | .error _, .ok _ => .isFalse (by simp)
  | .error e, .error f => decidable_of_iff (e = f) (by simp)

mutual

/-- `Statement.evaluate_truth` of the package version, with
`AbstractStatementCombiner.evaluate_truth`'s loop split out per combiner.
`SamenessCount.evaluate_truth` delegates to a `DisjunctiveStatement` of
`CountOfType` statements over `POSSIBLE_CHARACTERS`; since `CountOfType`
never raises, that disjunction is the boolean "or" of the three counts
written here (the set iteration order of `POSSIBLE_CHARACTERS` is
unobservable). -/
def evaluateTruth : Stmt → Scenario → Except PyError Bool
  | .trueStatement, _ => .ok true
  | .isOfType targetName claimed, sc =>
      match sc.lookup targetName with
      | some t => .ok (decide (t = claimed))
      | none => .error (.characterIdentifier targetName)
  | .isSameAs t1 t2, sc =>
      match sc.lookup t1 with
      | none => .error (.characterIdentifier t1)
      | some k1 =>
        match sc.lookup t2 with
        | none => .error (.characterIdentifier t2)
        | some k2 => .ok (decide (k1 = k2))
  | .honesty t1 t2 rel, sc =>
      match sc.lookup t1 with
      | none => .error (.characterIdentifier t1)
      | some k1 =>
        match sc.lookup t2 with
        | none => .error (.characterIdentifier t2)
        | some k2 => .ok (evalRel rel (truthQuantifier k1) (truthQuantifier k2))
  | .countOfType kind claimedCount rel, sc =>
      .ok (evalRel rel (countOfTypeIn sc kind) claimedCount)
  | .samenessCount claimedCount rel, sc =>
      .ok (evalRel rel (countOfTypeIn sc .Knight) claimedCount
        || evalRel rel (countOfTypeIn sc .Knave) claimedCount
        || evalRel rel (countOfTypeIn sc .Monk) claimedCount)
  | .conjunctive statements, sc => evalConjList statements sc
  | .disjunctive statements, sc => evalDisjList statements sc
  | .notS statement, sc => do
      let truth ← evaluateTruth statement sc
      .ok (!truth)
  | .ifConnective a b, sc => do
      let ta ← evaluateTruth a sc
      let tb ← evaluateTruth b sc
      .ok (!ta || tb)
  | .exclusiveOr a b, sc => do
      let ta ← evaluateTruth a sc
      let tb ← evaluateTruth b sc
      .ok ((ta || tb) && !(ta && tb))

/-- `ConjunctiveStatement`'s instance of the combiner loop: a `False` truth
value ends the loop with `False`; an exhausted loop yields the default
`True`.  A statement raising an error aborts the loop with that error. -/
def evalConjList : List Stmt → Scenario → Except PyError Bool
  | [], _ => .ok true
  | s :: rest, sc => do
      let truth ← evaluateTruth s sc
      if truth = false then .ok false else evalConjList rest sc

/-- `DisjunctiveStatement`'s instance of the combiner loop: a `True` truth
value ends the loop with `True`; an exhausted loop yields the default
`False`. -/
def evalDisjList : List Stmt → Scenario → Except PyError Bool
  | [], _ => .ok false
  | s :: rest, sc => do
      let truth ← evaluateTruth s sc
      if truth = true then .ok true else evalDisjList rest sc

end

/-- `Statement.evaluate_consistency`: a `Monk` speaker is consistent without
evaluating the statement; a `Knight` speaker is consistent iff the statement
is true; a `Knave` speaker is consistent iff the statement is false. -/
def evaluateConsistency (statement : Stmt) (speakingCharacterType : Character)
    (scenario : Scenario) : Except PyError Bool :=
  if speakingCharacterType = .Monk then .ok true
  else do
    let truth ← evaluateTruth statement scenario
    match speakingCharacterType with
    | .Knight => .ok truth
    | .Knave => .ok (!truth)
    | .Monk => .ok true

/-- The root version's `IsOfType.evaluate_truth` uses
`isinstance(scenario.character_types[name], claimed)`.  The dictionary stores
the identity *class objects* themselves, and a class object is an instance of
`type`, not of any `Character` subclass, so the `isinstance` test is `False`
for every assigned identity; only the `KeyError` branch matches the package
version. -/
def isOfTypeEvaluateTruthRoot (targetName : String) (claimed : Character)
    (sc : Scenario) : Except PyError Bool :=
  match sc.lookup targetName with
  | some _ =>
      let _ := claimed
      .ok false
  | none => .error (.characterIdentifier targetName)

/-- A `Puzzle`'s immutable inputs: the `character_names_and_statements`
dictionary (insertion-ordered), and the `allow_monks` flag. -/
structure Puzzle where
  characters : List (String × List Stmt)
  allowMonks : Bool

/-- `Puzzle.character_names`, in insertion order. -/
def Puzzle.characterNames (p : Puzzle) : List String :=
  p.characters.map Prod.fst

/-- `Puzzle.num_characters`. -/
def Puzzle.numCharacters (p : Puzzle) : Nat :=
  p.characterNames.length

/-- `Puzzle._calculate_max_num_monks`: `0` when monks are disallowed;
otherwise `n // 2`, decremented by 1 when `n // 2 == n / 2` (true float
equality, i.e. exactly when `n` is even).  The result is an integer because
`n = 0` yields `-1`. -/
def calculateMaxNumMonks (allowMonks : Bool) (numCharacters : Nat) : Int :=
  if allowMonks = false then 0
  else
    let m : Int := (numCharacters : Int) / 2
    if 2 * m = (numCharacters : Int) then m - 1 else m

/-- The derived `max_num_monks` attribute. -/
def Puzzle.maxNumMonks (p : Puzzle) : Int :=
  calculateMaxNumMonks p.allowMonks p.numCharacters

/-- The loop body of `Puzzle._generate_scenario` over the (name, identity)
pairs: the running monk count is bumped, the pair is recorded, and the bound
check aborts construction (`TooManyMonksError`, modelled as `none`) as soon
as the running count exceeds `maxMonks`. -/
def buildCharacterTypes : List (String × Character) → Int → Int → Option Scenario
  | [], _, _ => some []
  | (name, kind) :: rest, monkCount, maxMonks =>
      let mc := if kind = .Monk then monkCount + 1 else monkCount
      if mc > maxMonks then none
      else (buildCharacterTypes rest mc maxMonks).map (fun tail => (name, kind) :: tail)

/-- `Puzzle._generate_scenario`: pairs the puzzle's character names with the
identity ordering (the source walks `identity_ordering` by index alongside
`character_names`) and builds the `character_types` dictionary, aborting on
too many monks. -/
def generateScenario (p : Puzzle) (identityOrdering : List Character) : Option Scenario :=
  buildCharacterTypes (p.characterNames.zip identityOrdering) 0 p.maxNumMonks

/-- `POSSIBLE_CHARACTERS`.  The package version stores a Python `set`, whose
iteration order is unobservable in every result the claims mention; the model
fixes the order in which the root version lists them. -/
def POSSIBLE_CHARACTERS : List Character := [.Knight, .Knave, .Monk]

/-- `itertools.product(chars, repeat=n)` as a list of identity orderings,
leftmost position varying slowest. -/
def orderings (chars : List Character) : Nat → List (List Character)
  | 0 => [[]]
  | n + 1 => chars.flatMap (fun c => (orderings chars n).map (fun o => c :: o))

/-- `Puzzle._generate_scenarios` (package version): `Monk` is removed from
the candidate identities when `max_num_monks == 0`, the full product is
enumerated, and candidates aborted by `TooManyMonksError` are skipped. -/
def generateScenarios (p : Puzzle) : List Scenario :=
  let possibleCharacters :=
    if p.maxNumMonks = 0 then POSSIBLE_CHARACTERS.erase .Monk else POSSIBLE_CHARACTERS
  (orderings possibleCharacters p.numCharacters).filterMap (generateScenario p)

/-- The loop of `Scenario._check_consistency` over
`puzzle.character_statements.items()`: look up the speaker's identity (a
missing speaker is a raw `KeyError`), skip characters with no statements,
join multiple statements into a single `ConjunctiveStatement`, and stop at
the first inconsistent character with the failure reason (modelled by the
failing character's name; the source embeds it in a formatted message). -/
def checkCharacters : List (String × List Stmt) → Scenario → Except PyError (Bool × Option String)
  | [], _ => .ok (true, none)
  | (characterName, statements) :: rest, sc =>
      match sc.lookup characterName with
      | none => .error (.keyError characterName)
      | some speakingCharacterType =>
        match statements with
        | [] => checkCharacters rest sc
        | [statement] => do
            let c ← evaluateConsistency statement speakingCharacterType sc
            if c then checkCharacters rest sc else .ok (false, some characterName)
        | s1 :: s2 :: ss => do
            let c ← evaluateConsistency (.conjunctive (s1 :: s2 :: ss)) speakingCharacterType sc
            if c then checkCharacters rest sc else .ok (false, some characterName)

/-- `Scenario._check_consistency` for a scenario of puzzle `p`. -/
def checkConsistency (p : Puzzle) (sc : Scenario) : Except PyError (Bool × Option String) :=
  checkCharacters p.characters sc

/-- `Puzzle.generate_and_check_scenarios` followed by reading each scenario's
memoized result: every generated scenario paired with its consistency
boolean; the first raised error propagates. -/
def checkedScenarios (p : Puzzle) : Except PyError (List (Scenario × Bool)) :=
  (generateScenarios p).mapM (fun sc =>
    (checkConsistency p sc).map (fun r => (sc, r.1)))

/-- `Puzzle.get_consistent_scenario_set` as the list of consistent scenarios
in generation order (the Python `set` deduplicates; scenarios of one puzzle
share the key order, so `List.dedup` below matches `Scenario.__eq__`). -/
def consistentScenarios (p : Puzzle) : Except PyError (List Scenario) :=
  (checkedScenarios p).map (fun l => (l.filter (fun e => e.2)).map Prod.fst)

/-- `Puzzle.get_solution_count`: the size of the consistent-scenario set. -/
def getSolutionCount (p : Puzzle) : Except PyError Nat :=
  (consistentScenarios p).map (fun l => l.dedup.length)

/-- `CHARACTER_COUNT_BOUND = [3, 7]`. -/
def CHARACTER_COUNT_BOUND : List Nat := [3, 7]

/-- `SOLUTION_COUNT_BOUND = [0, 2]`. -/
def SOLUTION_COUNT_BOUND : List Nat := [0, 2]

/-- `Puzzle.is_valid_puzzle`: character count within
`CHARACTER_COUNT_BOUND` and solution count within `SOLUTION_COUNT_BOUND`. -/
def isValidPuzzle (p : Puzzle) : Except PyError Bool :=
  (getSolutionCount p).map (fun c =>
    (decide (CHARACTER_COUNT_BOUND[0]! ≤ p.numCharacters)
      && decide (p.numCharacters ≤ CHARACTER_COUNT_BOUND[1]!))
    && (decide (SOLUTION_COUNT_BOUND[0]! ≤ c) && decide (c ≤ SOLUTION_COUNT_BOUND[1]!)))

/-- Number of `Monk` assignments in a scenario (the counting loop of
`Puzzle.has_maximum_monks`). -/
def monkCount (sc : Scenario) : Nat :=
  countOfTypeIn sc .Monk

/-- `Puzzle.has_maximum_monks`: true iff some scenario in the
consistent-scenario set has exactly `max_num_monks` monks. -/
def hasMaximumMonks (p : Puzzle) : Except PyError Bool :=
  (consistentScenarios p).map (fun l =>
    l.dedup.any (fun sc => decide ((monkCount sc : Int) = p.maxNumMonks)))

/-- `Scenario.__eq__`'s loop over `self`'s items: a name missing from `other`
raises a raw `KeyError`; a differing identity returns `False`; an exhausted
loop returns `True`. -/
def scenarioEqAux : List (String × Character) → Scenario → Except PyError Bool
  | [], _ => .ok true
  | (name, t) :: rest, other =>
      match other.lookup name with
      | none => .error (.keyError name)
      | some t' => if t' ≠ t then .ok false else scenarioEqAux rest other

/-- `Scenario.__eq__` (identical in both source versions): `False` when the
dictionary sizes differ, otherwise every name of `self` must map to the same
identity in `other`. -/
def scenarioEq (s other : Scenario) : Except PyError Bool :=
  if s.length ≠ other.length then .ok false
  else scenarioEqAux s other

/-- The string the root version's `Scenario.__hash__` feeds to `hash`: built
from the items in dictionary (insertion) order. -/
def scenarioHashStringRoot (sc : Scenario) : String :=
  sc.foldl (fun acc e => acc ++ e.1 ++ "," ++ shortIdentifier e.2 ++ "|") "|"

/-- Python's `<=` on strings: code-point lexicographic comparison of the
character sequences. -/
def charListLe : List Char → List Char → Bool
  | [], _ => true
  | _ :: _, [] => false
  | a :: as, b :: bs =>
      if a < b then true
      else if b < a then false
      else charListLe as bs

/-- Python's `<=` on strings, on `String`'s underlying character list. -/
def pyStrLe (a b : String) : Bool :=
  charListLe a.data b.data

/-- The string the package version's `Scenario.__hash__` feeds to `hash`:
built from the items with the names sorted (`for name in
sorted(self.character_types)`; sorting is modelled with insertion sort under
Python's string order, which agrees with any sort of the distinct keys).
The lookup of a sorted name cannot fail (names are drawn from the dictionary
itself); the impossible branch leaves the accumulator unchanged. -/
def scenarioHashStringPkg (sc : Scenario) : String :=
  ((sc.map Prod.fst).insertionSort (fun a b => pyStrLe a b = true)).foldl
    (fun acc name =>
      match sc.lookup name with
      | some t => acc ++ name ++ "," ++ shortIdentifier t ++ "|"
      | none => acc)
    "|"

/-- Number of `Monk` entries in an identity ordering drawn from the
`itertools.product` enumeration. -/
def monkCountOrdering (o : List Character) : Nat :=
  o.countP (fun c => decide (c = Character.Monk))

/-- A puzzle constructed with zero characters and monks allowed. -/
def emptyPuzzle : Puzzle := ⟨[], true⟩

/-- A one-character puzzle whose character says nothing, monks allowed. -/
def oneSilent : Puzzle := ⟨[("A", [])], true⟩

/-- A three-character puzzle where nobody speaks, with monks disallowed. -/
def threeSilentNoMonks : Puzzle := ⟨[("A", []), ("B", []), ("C", [])], false⟩

end PuzzleGen

namespace PuzzleGen

/-- C7: with monks allowed, `max_num_monks` is `n // 2` decremented by 1
exactly when `n` is even, this value is strictly less than half the
character count, and the table n=3→1, n=4→1, n=5→2, n=6→2, n=7→3 holds. -/
theorem max_num_monks_formula (n : Nat) :
    calculateMaxNumMonks true n
      = (if n % 2 = 0 then ((n / 2 : Nat) : Int) - 1 else ((n / 2 : Nat) : Int))
    ∧ 2 * calculateMaxNumMonks true n < (n : Int)
    ∧ calculateMaxNumMonks true 3 = 1
    ∧ calculateMaxNumMonks true 4 = 1
    ∧ calculateMaxNumMonks true 5 = 2
    ∧ calculateMaxNumMonks true 6 = 2
    ∧ calculateMaxNumMonks true 7 = 3 := by
  have hshape : calculateMaxNumMonks true n =
      if 2 * ((n : Int) / 2) = (n : Int) then (n : Int) / 2 - 1 else (n : Int) / 2 := rfl
  refine ⟨?_, ?_, by decide, by decide, by decide, by decide, by decide⟩ <;>
    rw [hshape] <;> split_ifs <;> omega

/-- C10: a zero-character puzzle with monks allowed has `max_num_monks = -1`,
yet scenario generation produces exactly the empty scenario (whose monk count
`0` exceeds the bound, which is only checked inside the per-character loop),
the empty scenario's consistency check is `(True, None)`, and the solution
count is `1` with no error raised. -/
theorem empty_puzzle_degenerate :
    emptyPuzzle.maxNumMonks = -1
    ∧ generateScenarios emptyPuzzle = [[]]
    ∧ (monkCount ([] : Scenario) : Int) > emptyPuzzle.maxNumMonks
    ∧ checkConsistency emptyPuzzle [] = .ok (true, none)
    ∧ getSolutionCount emptyPuzzle = .ok 1 := by decide

/-- C5: the package version's `IsOfType.evaluate_truth` returns true iff the
scenario assigns the target exactly the claimed identity; the root version's
`isinstance` test receives a class object and therefore returns false for
every assignment, diverging from that contract. -/
theorem is_of_type_identity_equality (sc : Scenario) (targetName : String)
    (claimed k : Character) (h : sc.lookup targetName = some k) :
    (evaluateTruth (.isOfType targetName claimed) sc = .ok true ↔ k = claimed)
    ∧ isOfTypeEvaluateTruthRoot targetName claimed sc = .ok false := by
  constructor
  · simp [evaluateTruth, h]
  · simp [isOfTypeEvaluateTruthRoot, h]

/-- C5 witness: a scenario assigning `Knight` to `A`; the package version
affirms `IsOfType("A", Knight)` while the root version denies it. -/
theorem is_of_type_identity_equality_witness :
    (evaluateTruth (.isOfType "A" .Knight) [("A", .Knight)] = .ok true
      ↔ Character.Knight = .Knight)
    ∧ isOfTypeEvaluateTruthRoot "A" .Knight [("A", .Knight)] = .ok false :=
  is_of_type_identity_equality [("A", .Knight)] "A" .Knight .Knight (by decide)

/-- C1: a character's several statements are joined into one
`ConjunctiveStatement` before the consistency projection is applied once: a
`Knave` whose statements are one true and one false statement is consistent
(the conjunction is false), while a `Knight` with the same statements is
inconsistent. -/
theorem conjunction_joined_before_projection (name : String) (s1 s2 : Stmt)
    (sc : Scenario)
    (h1 : evaluateTruth s1 sc = .ok true) (h2 : evaluateTruth s2 sc = .ok false) :
    evaluateConsistency (.conjunctive [s1, s2]) .Knave sc = .ok true
    ∧ evaluateConsistency (.conjunctive [s1, s2]) .Knight sc = .ok false
    ∧ (sc.lookup name = some .Knave →
        checkCharacters [(name, [s1, s2])] sc = .ok (true, none))
    ∧ (sc.lookup name = some .Knight →
        checkCharacters [(name, [s1, s2])] sc = .ok (false, some name)) := by
  have hconj : evaluateTruth (.conjunctive [s1, s2]) sc = .ok false := by
    show evalConjList [s1, s2] sc = .ok false
    rw [evalConjList, h1]
    show evalConjList [s2] sc = .ok false
    rw [evalConjList, h2]
    rfl
  have hknave : evaluateConsistency (.conjunctive [s1, s2]) .Knave sc = .ok true := by
    rw [evaluateConsistency, if_neg (by decide), hconj]
    rfl
  have hknight : evaluateConsistency (.conjunctive [s1, s2]) .Knight sc = .ok false := by
    rw [evaluateConsistency, if_neg (by decide), hconj]
    rfl
  refine ⟨hknave, hknight, ?_, ?_⟩
  · intro hl
    rw [checkCharacters, hl]
    simp only [hknave]
    rfl
  · intro hl
    rw [checkCharacters, hl]
    simp only [hknight]
    rfl

/-- C1 witness: character `A` assigned `Knave` saying `2+2=4.` and its
negation; the conjunction is false, so the knave's scenario checks out. -/
theorem conjunction_joined_before_projection_witness :
    evaluateConsistency (.conjunctive [.trueStatement, .notS .trueStatement])
        .Knave [("A", .Knave)] = .ok true
    ∧ evaluateConsistency (.conjunctive [.trueStatement, .notS .trueStatement])
        .Knight [("A", .Knave)] = .ok false
    ∧ (([("A", .Knave)] : Scenario).lookup "A" = some .Knave →
        checkCharacters [("A", [.trueStatement, .notS .trueStatement])]
          [("A", .Knave)] = .ok (true, none))
    ∧ (([("A", .Knave)] : Scenario).lookup "A" = some .Knight →
        checkCharacters [("A", [.trueStatement, .notS .trueStatement])]
          [("A", .Knave)] = .ok (false, some "A")) :=
  conjunction_joined_before_projection "A" .trueStatement (.notS .trueStatement)
    [("A", .Knave)] (by decide) (by decide)

/-- C4 counterexample: with scenario `{A: Knight}`, the conjunction of a
false statement and a statement about the unknown name `Ghost` evaluates to
`ok False` — the combiner loop stops at the false statement and never
performs the missing-name lookup — and the consistency check of a puzzle
whose character `A` utters those two statements completes without any error;
a `Monk` speaker is likewise consistent without the lookup ever running. -/
theorem missing_name_short_circuit_counterexample :
    ([("A", Character.Knight)] : Scenario).lookup "Ghost" = none
    ∧ evaluateTruth (.conjunctive [.notS .trueStatement, .isOfType "Ghost" .Knight])
        [("A", .Knight)] = .ok false
    ∧ evaluateConsistency (.isOfType "Ghost" .Knight) .Monk [("A", .Knight)] = .ok true
    ∧ checkCharacters [("A", [.notS .trueStatement, .isOfType "Ghost" .Knight])]
        [("A", .Knight)] = .ok (false, some "A") := by decide

/-- C4 amended: when the missing-name lookup is actually reached — the
speaker is not a `Monk` and no earlier sub-statement short-circuits the
combiner — `IsOfType` raises `CharacterIdentifierError` naming the missing
character, the consistency projection propagates any evaluation error, and
`_check_consistency` propagates it to its caller; a performed lookup of a
missing name is never treated as a false statement. -/
theorem missing_name_error_propagates (sc : Scenario) (missing : String)
    (claimed : Character) (stmt : Stmt) (speaker : Character) (name : String)
    (rest : List (String × List Stmt)) (e : PyError)
    (hm : sc.lookup missing = none)
    (hs : sc.lookup name = some speaker)
    (hsp : speaker ≠ .Monk)
    (he : evaluateTruth stmt sc = .error e) :
    evaluateTruth (.isOfType missing claimed) sc = .error (.characterIdentifier missing)
    ∧ evaluateConsistency stmt speaker sc = .error e
    ∧ checkCharacters ((name, [stmt]) :: rest) sc = .error e := by
  have hc : evaluateConsistency stmt speaker sc = .error e := by
    rw [evaluateConsistency, if_neg hsp, he]
    rfl
  refine ⟨by simp [evaluateTruth, hm], hc, ?_⟩
  rw [checkCharacters, hs]
  simp only [hc]
  rfl

/-- C4 amended witness: character `A` (a Knight) utters only a statement
about the unknown `Ghost`; the lookup is reached and the error propagates
through the whole consistency check. -/
theorem missing_name_error_propagates_witness :
    evaluateTruth (.isOfType "Ghost" .Knight) [("A", Character.Knight)]
        = .error (.characterIdentifier "Ghost")
    ∧ evaluateConsistency (.isOfType "Ghost" .Knight) .Knight [("A", .Knight)]
        = .error (.characterIdentifier "Ghost")
    ∧ checkCharacters [("A", [.isOfType "Ghost" .Knight])] [("A", .Knight)]
        = .error (.characterIdentifier "Ghost") :=
  missing_name_error_propagates [("A", .Knight)] "Ghost" .Knight
    (.isOfType "Ghost" .Knight) .Knight "A" [] (.characterIdentifier "Ghost")
    (by decide) (by decide) (by decide) (by decide)

/-- A character assigned `Monk` never fails the consistency loop: their entry
is processed identically whatever their statement list is. -/
theorem checkCharacters_monk_cons (n : String) (ss : List Stmt)
    (rest : List (String × List Stmt)) (sc : Scenario)
    (h : sc.lookup n = some .Monk) :
    checkCharacters ((n, ss) :: rest) sc = checkCharacters rest sc := by
  rcases ss with _ | ⟨s1, _ | ⟨s2, tl⟩⟩ <;> rw [checkCharacters, h] <;> rfl

/-- Replacing the tail of the character list with a consistency-equivalent
tail does not change the result of the loop. -/
theorem checkCharacters_cons_congr (n : String) (ss : List Stmt)
    (r1 r2 : List (String × List Stmt)) (sc : Scenario)
    (h : checkCharacters r1 sc = checkCharacters r2 sc) :
    checkCharacters ((n, ss) :: r1) sc = checkCharacters ((n, ss) :: r2) sc := by
  rw [checkCharacters]
  conv_rhs => rw [checkCharacters]
  cases hl : sc.lookup n with
  | none => rfl
  | some k =>
    rcases ss with _ | ⟨s1, _ | ⟨s2, tl⟩⟩
    · exact h
    · show (do
          let c ← evaluateConsistency s1 k sc
          if c = true then checkCharacters r1 sc else Except.ok (false, some n)) =
        (do
          let c ← evaluateConsistency s1 k sc
          if c = true then checkCharacters r2 sc else Except.ok (false, some n))
      cases evaluateConsistency s1 k sc with
      | error e => rfl
      | ok b =>
        cases b
        · rfl
        · exact h
    · show (do
          let c ← evaluateConsistency (.conjunctive (s1 :: s2 :: tl)) k sc
          if c = true then checkCharacters r1 sc else Except.ok (false, some n)) =
        (do
          let c ← evaluateConsistency (.conjunctive (s1 :: s2 :: tl)) k sc
          if c = true then checkCharacters r2 sc else Except.ok (false, some n))
      cases evaluateConsistency (Stmt.conjunctive (s1 :: s2 :: tl)) k sc with
      | error e => rfl
      | ok b =>
        cases b
        · rfl
        · exact h

/-- C2: in any scenario assigning `Monk` to character `X`, the result of the
consistency check — the boolean together with the reason — is unchanged under
any replacement of `X`'s statement list, so `X`'s statements never affect
the scenario's consistency result. -/
theorem monk_statements_do_not_affect_consistency
    (cs : List (String × List Stmt)) (sc : Scenario) (X : String)
    (hX : sc.lookup X = some .Monk) (g : List Stmt → List Stmt) :
    checkCharacters (cs.map (fun e => if e.1 = X then (e.1, g e.2) else e)) sc
      = checkCharacters cs sc := by
  induction cs with
  | nil => rfl
  | cons e rest ih =>
    obtain ⟨n, ss⟩ := e
    rw [List.map_cons]
    by_cases hn : n = X
    · subst hn
      simp only [eq_self_iff_true, if_true]
      rw [checkCharacters_monk_cons n (g ss) _ sc hX,
        checkCharacters_monk_cons n ss rest sc hX]
      exact ih
    · simp only [if_neg hn]
      exact checkCharacters_cons_congr n ss _ rest sc ih

/-- C2 witness: a puzzle with a monk `A` and a knight `B`; replacing `A`'s
statements with a falsehood leaves the consistency result unchanged. -/
theorem monk_statements_do_not_affect_consistency_witness :
    checkCharacters
        ([("A", [Stmt.trueStatement]), ("B", [Stmt.trueStatement])].map
          (fun e => if e.1 = "A" then (e.1, [Stmt.notS .trueStatement]) else e))
        [("A", .Monk), ("B", .Knight)]
      = checkCharacters [("A", [Stmt.trueStatement]), ("B", [Stmt.trueStatement])]
          [("A", .Monk), ("B", .Knight)] :=
  monk_statements_do_not_affect_consistency
    [("A", [Stmt.trueStatement]), ("B", [Stmt.trueStatement])]
    [("A", .Monk), ("B", .Knight)] "A" (by decide)
    (fun _ => [Stmt.notS .trueStatement])

/-- C3 counterexample: `threeSilentNoMonks` has `max_num_monks = 0`, yet
`has_maximum_monks` returns `True` — its consistent scenarios all have
exactly `0 = max_num_monks` monks — refuting "false whenever
`max_num_monks == 0`". -/
theorem max_monks_zero_counterexample :
    threeSilentNoMonks.maxNumMonks = 0
    ∧ hasMaximumMonks threeSilentNoMonks = .ok true := by decide

/-- C3 amended: `has_maximum_monks` is true iff at least one solution
scenario contains exactly `max_num_monks` monks (when `max_num_monks = 0`
this holds exactly when any solution exists, since every generated scenario
then has zero monks). -/
theorem has_maximum_monks_iff (p : Puzzle) (l : List Scenario)
    (h : consistentScenarios p = .ok l) :
    (hasMaximumMonks p = .ok true
      ↔ ∃ sc ∈ l, (monkCount sc : Int) = p.maxNumMonks) := by
  rw [hasMaximumMonks, h]
  show Except.ok (l.dedup.any fun sc => decide ((monkCount sc : Int) = p.maxNumMonks))
      = .ok true ↔ _
  simp [List.any_eq_true, List.mem_dedup]

/-- C3 amended witness: the one-character puzzle has solutions with zero
monks, saturating its bound `max_num_monks = 0`. -/
theorem has_maximum_monks_iff_witness :
    consistentScenarios oneSilent = .ok [[("A", .Knight)], [("A", .Knave)]]
    ∧ (hasMaximumMonks oneSilent = .ok true
        ↔ ∃ sc ∈ [[("A", Character.Knight)], [("A", Character.Knave)]],
            (monkCount sc : Int) = oneSilent.maxNumMonks) :=
  ⟨by decide, has_maximum_monks_iff oneSilent _ (by decide)⟩

/-- C9: `is_valid_puzzle` is true iff the character count lies in `[3, 7]`
and the solution count lies in `[0, 2]`; a solution count of 3 makes the
puzzle invalid, and 2 or 8 characters make it invalid regardless of the
solution count. -/
theorem is_valid_puzzle_iff (p : Puzzle) (c : Nat)
    (h : getSolutionCount p = .ok c) :
    (isValidPuzzle p = .ok true
      ↔ (3 ≤ p.numCharacters ∧ p.numCharacters ≤ 7 ∧ c ≤ 2))
    ∧ (c = 3 → isValidPuzzle p = .ok false)
    ∧ ((p.numCharacters = 2 ∨ p.numCharacters = 8) → isValidPuzzle p = .ok false) := by
  have hb : isValidPuzzle p = .ok
      ((decide (3 ≤ p.numCharacters) && decide (p.numCharacters ≤ 7))
        && (decide (0 ≤ c) && decide (c ≤ 2))) := by
    rw [isValidPuzzle, h]
    rfl
  refine ⟨?_, ?_, ?_⟩
  · rw [hb]
    simp [and_assoc]
  · intro hc
    subst hc
    rw [hb]
    simp
  · intro hn
    rw [hb]
    rcases hn with hn | hn <;> rw [hn] <;> simp

/-- C9 witness: the silent three-character monkless puzzle has 8 solutions,
so it is invalid although its character count is in range. -/
theorem is_valid_puzzle_iff_witness :
    (isValidPuzzle threeSilentNoMonks = .ok true
      ↔ (3 ≤ threeSilentNoMonks.numCharacters
          ∧ threeSilentNoMonks.numCharacters ≤ 7 ∧ 8 ≤ 2))
    ∧ (8 = 3 → isValidPuzzle threeSilentNoMonks = .ok false)
    ∧ ((threeSilentNoMonks.numCharacters = 2 ∨ threeSilentNoMonks.numCharacters = 8)
        → isValidPuzzle threeSilentNoMonks = .ok false) :=
  is_valid_puzzle_iff threeSilentNoMonks 8 (by decide)

/-- Every ordering in the `itertools.product` enumeration has the repetition
count as its length. -/
theorem mem_orderings_length (chars : List Character) (n : Nat) :
    ∀ o ∈ orderings chars n, o.length = n := by
  induction n with
  | zero =>
    intro o ho
    simp only [orderings, List.mem_singleton] at ho
    simp [ho]
  | succ n ih =>
    intro o ho
    simp only [orderings, List.mem_flatMap, List.mem_map] at ho
    obtain ⟨c, -, o', ho', rfl⟩ := ho
    simp [ih o' ho']

/-- Every ordering in the `itertools.product` enumeration draws its entries
from the candidate identity list. -/
theorem mem_orderings_subset (chars : List Character) (n : Nat) :
    ∀ o ∈ orderings chars n, ∀ c ∈ o, c ∈ chars := by
  induction n with
  | zero =>
    intro o ho
    simp only [orderings, List.mem_singleton] at ho
    simp [ho]
  | succ n ih =>
    intro o ho
    simp only [orderings, List.mem_flatMap, List.mem_map] at ho
    obtain ⟨c, hc, o', ho', rfl⟩ := ho
    intro d hd
    rcases List.mem_cons.mp hd with rfl | hd
    · exact hc
    · exact ih o' ho' d hd

/-- The `itertools.product` enumeration has `|chars| ^ n` entries. -/
theorem length_orderings (chars : List Character) (n : Nat) :
    (orderings chars n).length = chars.length ^ n := by
  induction n with
  | zero => rfl
  | succ n ih =>
    simp only [orderings, List.length_flatMap]
    have hconst : (List.length ∘ fun c : Character => (orderings chars n).map (fun o => c :: o))
        = fun _ => (orderings chars n).length := by
      funext c
      simp
    rw [show (List.map (List.length ∘ fun c : Character =>
          (orderings chars n).map (fun o => c :: o)) chars)
        = List.map (fun _ => (orderings chars n).length) chars from by rw [hconst]]
    rw [List.map_const', List.sum_replicate, smul_eq_mul, ih]
    ring

/-- The monk count of a generated `character_types` dictionary equals the
monk count of the identity ordering it was built from. -/
theorem monkCount_zip (names : List String) (o : List Character)
    (h : names.length = o.length) :
    monkCount (names.zip o) = monkCountOrdering o := by
  induction names generalizing o with
  | nil =>
    cases o with
    | nil => rfl
    | cons c cs => simp at h
  | cons nm ns ih =>
    cases o with
    | nil => simp at h
    | cons c cs =>
      simp only [List.zip_cons_cons, monkCount, countOfTypeIn, monkCountOrdering,
        List.countP_cons] at ih ⊢
      rw [ih cs (by simpa using h)]

/-- `_generate_scenario`'s loop on a nonempty pair list succeeds exactly when
the starting monk count plus the total monk count stays within the bound;
the running check against a monotone running count is equivalent to the
final check. -/
theorem buildCharacterTypes_eq_some (pairs : List (String × Character))
    (mc maxMonks : Int) (h : pairs ≠ []) :
    buildCharacterTypes pairs mc maxMonks
      = if mc + (monkCount pairs : Int) ≤ maxMonks then some pairs else none := by
  induction pairs generalizing mc with
  | nil => exact absurd rfl h
  | cons e rest ih =>
    obtain ⟨n, k⟩ := e
    have hcnt : mc + (monkCount ((n, k) :: rest) : Int)
        = (if k = Character.Monk then mc + 1 else mc) + (monkCount rest : Int) := by
      by_cases hk : k = Character.Monk <;>
        simp [monkCount, countOfTypeIn, List.countP_cons, hk] <;> omega
    rw [buildCharacterTypes]
    cases rest with
    | nil =>
      have hbase : (buildCharacterTypes []
            (if k = Character.Monk then mc + 1 else mc) maxMonks).map
          (fun tail => (n, k) :: tail) = some [(n, k)] := rfl
      rw [hbase]
      have h0 : (monkCount ([] : List (String × Character)) : Int) = 0 := rfl
      by_cases hb : (if k = Character.Monk then mc + 1 else mc) > maxMonks
      · rw [if_pos hb, if_neg (by omega)]
      · rw [if_neg hb, if_pos (by omega)]
    | cons e2 r2 =>
      rw [ih _ (by simp)]
      by_cases hb : (if k = Character.Monk then mc + 1 else mc) > maxMonks
      · rw [if_pos hb, if_neg (by omega)]
      · by_cases hb2 : (if k = Character.Monk then mc + 1 else mc)
            + (monkCount (e2 :: r2) : Int) ≤ maxMonks
        · rw [if_neg hb, if_pos hb2, if_pos (by omega)]
          rfl
        · rw [if_neg hb, if_neg hb2, if_neg (by omega)]
          rfl

/-- `filterMap` by a function that acts as filter-then-map on every member of
the list is that filter-then-map. -/
theorem filterMap_eq_map_filter {α β : Type} (f : α → Option β) (p : α → Bool)
    (g : α → β) (l : List α)
    (h : ∀ a ∈ l, f a = if p a = true then some (g a) else none) :
    l.filterMap f = (l.filter p).map g := by
  induction l with
  | nil => rfl
  | cons a tl ih =>
    rw [List.filterMap_cons, List.filter_cons, h a (List.mem_cons_self a tl)]
    by_cases hp : p a = true
    · rw [if_pos hp, if_pos hp]
      show g a :: tl.filterMap f = g a :: (tl.filter p).map g
      rw [ih fun x hx => h x (List.mem_cons_of_mem a hx)]
    · rw [if_neg hp, if_neg hp]
      exact ih fun x hx => h x (List.mem_cons_of_mem a hx)

/-- Filtering the three-identity product down to the monk-free orderings
yields exactly the two-identity product, in the same enumeration order. -/
theorem filter_no_monk_orderings (n : Nat) :
    (orderings POSSIBLE_CHARACTERS n).filter (fun o => decide (monkCountOrdering o = 0))
      = orderings (POSSIBLE_CHARACTERS.erase .Monk) n := by
  have herase : POSSIBLE_CHARACTERS.erase Character.Monk = [.Knight, .Knave] := by decide
  rw [herase]
  induction n with
  | zero => rfl
  | succ n ih =>
    have expand : orderings POSSIBLE_CHARACTERS (n + 1)
        = (orderings POSSIBLE_CHARACTERS n).map (Character.Knight :: ·)
          ++ ((orderings POSSIBLE_CHARACTERS n).map (Character.Knave :: ·)
            ++ ((orderings POSSIBLE_CHARACTERS n).map (Character.Monk :: ·) ++ [])) := by
      simp [orderings, POSSIBLE_CHARACTERS, List.flatMap_cons]
    have hK : ((fun o => decide (monkCountOrdering o = 0)) ∘ (Character.Knight :: ·))
        = fun o => decide (monkCountOrdering o = 0) := by
      funext o
      simp [Function.comp, monkCountOrdering, List.countP_cons]
    have hV : ((fun o => decide (monkCountOrdering o = 0)) ∘ (Character.Knave :: ·))
        = fun o => decide (monkCountOrdering o = 0) := by
      funext o
      simp [Function.comp, monkCountOrdering, List.countP_cons]
    have hM : ((fun o => decide (monkCountOrdering o = 0)) ∘ (Character.Monk :: ·))
        = fun _ => false := by
      funext o
      simp [Function.comp, monkCountOrdering, List.countP_cons]
    rw [expand, List.filter_append, List.filter_append, List.filter_append,
      List.filter_map, List.filter_map, List.filter_map, hK, hV, hM, ih]
    simp [orderings, List.flatMap_cons]

/-- Orderings drawn from the monk-free identity list contain no monks. -/
theorem monkCountOrdering_eq_zero_of_no_monk (n : Nat) :
    ∀ o ∈ orderings (POSSIBLE_CHARACTERS.erase .Monk) n, monkCountOrdering o = 0 := by
  intro o ho
  rw [monkCountOrdering, List.countP_eq_zero]
  intro c hc
  have hmem := mem_orderings_subset _ n o ho c hc
  simp only [show POSSIBLE_CHARACTERS.erase Character.Monk = [.Knight, .Knave] from by decide,
    List.mem_cons, List.not_mem_nil, or_false] at hmem
  rcases hmem with rfl | rfl <;> decide

/-- C6 amended: for every puzzle with at least one character, the generated
scenario list is exactly the bound-respecting part of the identity product —
the full three-identity product filtered to monk counts within
`max_num_monks`, each ordering zipped with the character names — its size is
`3^n` minus the number of assignments whose monk count exceeds the bound,
and with monks disallowed it is the full two-identity product.  (The
zero-character puzzle is the sole exception, see the counterexample.) -/
theorem generate_scenarios_filtered_product (p : Puzzle)
    (hn : 1 ≤ p.numCharacters) :
    generateScenarios p
      = ((orderings POSSIBLE_CHARACTERS p.numCharacters).filter
          (fun o => decide ((monkCountOrdering o : Int) ≤ p.maxNumMonks))).map
          (fun o => p.characterNames.zip o)
    ∧ (generateScenarios p).length
      = 3 ^ p.numCharacters
        - ((orderings POSSIBLE_CHARACTERS p.numCharacters).filter
            (fun o => !decide ((monkCountOrdering o : Int) ≤ p.maxNumMonks))).length
    ∧ (p.allowMonks = false →
        generateScenarios p
          = (orderings (POSSIBLE_CHARACTERS.erase .Monk) p.numCharacters).map
              (fun o => p.characterNames.zip o)) := by
  have hpoint : ∀ o : List Character, o.length = p.numCharacters →
      generateScenario p o
        = if (fun o => decide ((monkCountOrdering o : Int) ≤ p.maxNumMonks)) o = true
          then some (p.characterNames.zip o) else none := by
    intro o hlen
    have hlz : (p.characterNames.zip o).length = p.numCharacters := by
      rw [List.length_zip, hlen]
      exact min_self _
    have hne : p.characterNames.zip o ≠ [] := by
      intro hcontra
      rw [hcontra] at hlz
      simp only [List.length_nil] at hlz
      omega
    rw [generateScenario, buildCharacterTypes_eq_some _ _ _ hne,
      monkCount_zip _ _ (by rw [hlen]; rfl)]
    by_cases hx : (monkCountOrdering o : Int) ≤ p.maxNumMonks
    · rw [if_pos (by omega), if_pos (by simpa using hx)]
    · rw [if_neg (by omega), if_neg (by simpa using hx)]
  have hgen : ∀ chars : List Character,
      (orderings chars p.numCharacters).filterMap (generateScenario p)
        = ((orderings chars p.numCharacters).filter
            (fun o => decide ((monkCountOrdering o : Int) ≤ p.maxNumMonks))).map
            (fun o => p.characterNames.zip o) := fun chars =>
    filterMap_eq_map_filter _ _ _ _
      (fun o ho => hpoint o (mem_orderings_length chars _ o ho))
  have hallzero : p.maxNumMonks = 0 →
      generateScenarios p
        = (orderings (POSSIBLE_CHARACTERS.erase .Monk) p.numCharacters).map
            (fun o => p.characterNames.zip o) := by
    intro hmax
    rw [generateScenarios, if_pos hmax, hgen]
    have hl : (orderings (POSSIBLE_CHARACTERS.erase .Monk) p.numCharacters).filter
        (fun o => decide ((monkCountOrdering o : Int) ≤ p.maxNumMonks))
        = orderings (POSSIBLE_CHARACTERS.erase .Monk) p.numCharacters := by
      rw [List.filter_eq_self]
      intro o ho
      have h0 := monkCountOrdering_eq_zero_of_no_monk p.numCharacters o ho
      simp [h0, hmax]
    rw [hl]
  have hfirst : generateScenarios p
      = ((orderings POSSIBLE_CHARACTERS p.numCharacters).filter
          (fun o => decide ((monkCountOrdering o : Int) ≤ p.maxNumMonks))).map
          (fun o => p.characterNames.zip o) := by
    by_cases hmax : p.maxNumMonks = 0
    · rw [hallzero hmax]
      have hpq : ∀ o ∈ orderings POSSIBLE_CHARACTERS p.numCharacters,
          (decide ((monkCountOrdering o : Int) ≤ p.maxNumMonks))
            = (decide (monkCountOrdering o = 0)) := by
        intro o ho
        rw [hmax]
        by_cases h0 : monkCountOrdering o = 0
        · simp [h0]
        · have hneg : ¬ ((monkCountOrdering o : Int) ≤ 0) := by omega
          simp [h0, hneg]
      rw [List.filter_congr hpq, filter_no_monk_orderings]
    · rw [generateScenarios, if_neg hmax, hgen]
  refine ⟨hfirst, ?_, fun hfalse => hallzero ?_⟩
  · rw [hfirst, List.length_map]
    have htot : (orderings POSSIBLE_CHARACTERS p.numCharacters).length
        = 3 ^ p.numCharacters := by
      rw [length_orderings]
      rfl
    have hpart := (orderings POSSIBLE_CHARACTERS p.numCharacters).length_eq_length_filter_add
      (fun o => decide ((monkCountOrdering o : Int) ≤ p.maxNumMonks))
    omega
  · rw [Puzzle.maxNumMonks, calculateMaxNumMonks, hfalse]
    rfl

/-- C6 counterexample: the zero-character puzzle generates the empty scenario
even though the empty assignment's monk count `0` exceeds
`max_num_monks = -1`, so the generated list is not the bound-respecting
subset of the identity product, and its size `1` is not `3^0` minus the
number of bound-violating assignments (which is `0`). -/
theorem generate_scenarios_zero_characters_counterexample :
    generateScenarios emptyPuzzle
      ≠ ((orderings POSSIBLE_CHARACTERS emptyPuzzle.numCharacters).filter
          (fun o => decide ((monkCountOrdering o : Int) ≤ emptyPuzzle.maxNumMonks))).map
          (fun o => emptyPuzzle.characterNames.zip o)
    ∧ (generateScenarios emptyPuzzle).length
      ≠ 3 ^ emptyPuzzle.numCharacters
        - ((orderings POSSIBLE_CHARACTERS emptyPuzzle.numCharacters).filter
            (fun o => !decide ((monkCountOrdering o : Int) ≤ emptyPuzzle.maxNumMonks))).length := by
  decide

/-- C6 witness: the one-character puzzle, where the bound `max_num_monks = 0`
routes generation through the two-identity product. -/
theorem generate_scenarios_filtered_product_witness :
    1 ≤ oneSilent.numCharacters
    ∧ (generateScenarios oneSilent
        = ((orderings POSSIBLE_CHARACTERS oneSilent.numCharacters).filter
            (fun o => decide ((monkCountOrdering o : Int) ≤ oneSilent.maxNumMonks))).map
            (fun o => oneSilent.characterNames.zip o)
      ∧ (generateScenarios oneSilent).length
        = 3 ^ oneSilent.numCharacters
          - ((orderings POSSIBLE_CHARACTERS oneSilent.numCharacters).filter
              (fun o => !decide ((monkCountOrdering o : Int) ≤ oneSilent.maxNumMonks))).length
      ∧ (oneSilent.allowMonks = false →
          generateScenarios oneSilent
            = (orderings (POSSIBLE_CHARACTERS.erase .Monk) oneSilent.numCharacters).map
                (fun o => oneSilent.characterNames.zip o))) :=
  ⟨by decide, generate_scenarios_filtered_product oneSilent (by decide)⟩

/-- Python's lexicographic string order is total. -/
theorem charListLe_total (x y : List Char) :
    charListLe x y = true ∨ charListLe y x = true := by
  induction x generalizing y with
  | nil => left; rfl
  | cons a as ih =>
    cases y with
    | nil => right; rfl
    | cons b bs =>
      rw [charListLe, charListLe]
      rcases lt_trichotomy a b with h | h | h
      · left
        rw [if_pos h]
      · subst h
        rw [if_neg (lt_irrefl a), if_neg (lt_irrefl a), if_neg (lt_irrefl a),
          if_neg (lt_irrefl a)]
        exact ih bs
      · right
        rw [if_pos h]

/-- Python's lexicographic string order is transitive. -/
theorem charListLe_trans (x y z : List Char) (hxy : charListLe x y = true)
    (hyz : charListLe y z = true) : charListLe x z = true := by
  induction x generalizing y z with
  | nil => rfl
  | cons a as ih =>
    cases y with
    | nil => exact absurd hxy (by rw [charListLe]; simp)
    | cons b bs =>
      cases z with
      | nil => exact absurd hyz (by rw [charListLe]; simp)
      | cons c cs =>
        rw [charListLe] at hxy hyz ⊢
        rcases lt_trichotomy a b with hab | hab | hab
        · rcases lt_trichotomy b c with hbc | hbc | hbc
          · rw [if_pos (lt_trans hab hbc)]
          · subst hbc
            rw [if_pos hab]
          · rw [if_neg (lt_asymm hbc), if_pos hbc] at hyz
            cases hyz
        · subst hab
          rcases lt_trichotomy a c with hac | hac | hac
          · rw [if_pos hac]
          · subst hac
            rw [if_neg (lt_irrefl a), if_neg (lt_irrefl a)] at hxy hyz ⊢
            exact ih bs cs hxy hyz
          · rw [if_neg (asymm hac), if_pos hac] at hyz
            cases hyz
        · rw [if_neg (lt_asymm hab), if_pos hab] at hxy
          cases hxy

/-- Python's lexicographic string order is antisymmetric. -/
theorem charListLe_antisymm (x y : List Char) (hxy : charListLe x y = true)
    (hyx : charListLe y x = true) : x = y := by
  induction x generalizing y with
  | nil =>
    cases y with
    | nil => rfl
    | cons b bs => exact absurd hyx (by rw [charListLe]; simp)
  | cons a as ih =>
    cases y with
    | nil => exact absurd hxy (by rw [charListLe]; simp)
    | cons b bs =>
      rw [charListLe] at hxy hyx
      rcases lt_trichotomy a b with h | h | h
      · rw [if_neg (lt_asymm h), if_pos h] at hyx
        cases hyx
      · subst h
        rw [if_neg (lt_irrefl a), if_neg (lt_irrefl a)] at hxy hyx
        rw [ih bs hxy hyx]
      · rw [if_neg (lt_asymm h), if_pos h] at hxy
        cases hxy

/-- `pyStrLe` antisymmetry, lifted to `String`. -/
theorem pyStrLe_antisymm (a b : String) (hab : pyStrLe a b = true)
    (hba : pyStrLe b a = true) : a = b := by
  have h := charListLe_antisymm a.data b.data hab hba
  cases a
  cases b
  simp only at h
  rw [h]

/-- With pairwise distinct keys, membership of a pair determines the
dictionary lookup. -/
theorem lookup_eq_some_of_mem (s : Scenario) (n : String) (t : Character)
    (hnd : (s.map Prod.fst).Nodup) (hmem : (n, t) ∈ s) :
    s.lookup n = some t := by
  induction s with
  | nil => simp at hmem
  | cons e rest ih =>
    obtain ⟨m, u⟩ := e
    simp only [List.map_cons, List.nodup_cons] at hnd
    rcases List.mem_cons.mp hmem with heq | hmem2
    · cases heq
      simp [List.lookup]
    · have hne : n ≠ m := by
        rintro rfl
        exact hnd.1 (List.mem_map.mpr ⟨(n, t), hmem2, rfl⟩)
      rw [List.lookup]
      rw [show (n == m) = false from by simpa using hne]
      exact ih hnd.2 hmem2

/-- A successful dictionary lookup produces a pair of the list. -/
theorem mem_of_lookup_eq_some (s : Scenario) (n : String) (t : Character)
    (h : s.lookup n = some t) : (n, t) ∈ s := by
  induction s with
  | nil => simp [List.lookup] at h
  | cons e rest ih =>
    obtain ⟨m, u⟩ := e
    by_cases hmn : n = m
    · subst hmn
      rw [List.lookup] at h
      rw [show (n == n) = true from by simp] at h
      cases h
      exact List.mem_cons_self _ _
    · rw [List.lookup] at h
      rw [show (n == m) = false from by simpa using hmn] at h
      exact List.mem_cons_of_mem _ (ih h)

/-- A dictionary lookup succeeds exactly on the stored keys. -/
theorem lookup_isSome_iff_mem_keys (s : Scenario) (n : String) :
    (s.lookup n).isSome = true ↔ n ∈ s.map Prod.fst := by
  induction s with
  | nil => simp [List.lookup]
  | cons e rest ih =>
    obtain ⟨m, u⟩ := e
    by_cases hmn : n = m
    · subst hmn
      rw [List.lookup]
      rw [show (n == n) = true from by simp]
      simp
    · rw [List.lookup]
      rw [show (n == m) = false from by simpa using hmn]
      simp only [List.map_cons, List.mem_cons]
      rw [ih]
      constructor
      · exact Or.inr
      · rintro (rfl | hmem)
        · exact absurd rfl hmn
        · exact hmem

/-- `Scenario.__eq__`'s loop returns `True` exactly when every item of
`self` is found unchanged in `other`. -/
theorem scenarioEqAux_ok_true_iff (s other : Scenario) :
    scenarioEqAux s other = .ok true ↔ ∀ e ∈ s, other.lookup e.1 = some e.2 := by
  induction s with
  | nil => simp [scenarioEqAux]
  | cons e rest ih =>
    obtain ⟨n, t⟩ := e
    rw [scenarioEqAux]
    cases hl : other.lookup n with
    | none =>
      constructor
      · intro hcontra
        cases hcontra
      · intro hall
        have := hall (n, t) (List.mem_cons_self _ _)
        rw [hl] at this
        cases this
    | some t' =>
      show (if t' ≠ t then Except.ok false else scenarioEqAux rest other) = Except.ok true
        ↔ ∀ e ∈ (n, t) :: rest, other.lookup e.1 = some e.2
      by_cases hne : t' ≠ t
      · rw [if_pos hne]
        constructor
        · intro hcontra
          cases hcontra
        · intro hall
          have := hall (n, t) (List.mem_cons_self _ _)
          rw [hl] at this
          cases this
          exact absurd rfl hne
      · rw [if_neg hne]
        push_neg at hne
        subst hne
        rw [ih]
        constructor
        · intro hall e he
          rcases List.mem_cons.mp he with rfl | he2
          · exact hl
          · exact hall e he2
        · intro hall e he
          exact hall e (List.mem_cons_of_mem _ he)

/-- If every item of `s1` is found unchanged in `s2`, then `s1`'s keys are a
subset of `s2`'s. -/
theorem keys_subset_of_pointwise (s1 s2 : Scenario)
    (hall : ∀ e ∈ s1, s2.lookup e.1 = some e.2) :
    s1.map Prod.fst ⊆ s2.map Prod.fst := by
  intro m hm
  obtain ⟨e, he, rfl⟩ := List.mem_map.mp hm
  have hmem := mem_of_lookup_eq_some s2 e.1 e.2 (hall e he)
  exact List.mem_map.mpr ⟨(e.1, e.2), hmem, rfl⟩

/-- `Scenario.__eq__` returns `True` exactly when the two dictionaries agree
as name-to-identity mappings (given distinct keys on both sides). -/
theorem scenarioEq_ok_true_iff (s1 s2 : Scenario)
    (h1 : (s1.map Prod.fst).Nodup) (h2 : (s2.map Prod.fst).Nodup) :
    scenarioEq s1 s2 = .ok true ↔ ∀ n, s1.lookup n = s2.lookup n := by
  rw [scenarioEq]
  by_cases hlen : s1.length ≠ s2.length
  · rw [if_pos hlen]
    constructor
    · intro hcontra
      cases hcontra
    · intro hall
      exfalso
      apply hlen
      have hiff : ∀ m, m ∈ s1.map Prod.fst ↔ m ∈ s2.map Prod.fst := by
        intro m
        rw [← lookup_isSome_iff_mem_keys, ← lookup_isSome_iff_mem_keys, hall m]
      have hperm := (List.perm_ext_iff_of_nodup h1 h2).mpr hiff
      have hlen2 := hperm.length_eq
      simpa using hlen2
  · rw [if_neg hlen]
    rw [scenarioEqAux_ok_true_iff]
    push_neg at hlen
    constructor
    · intro hall n
      cases hl1 : s1.lookup n with
      | some t =>
        exact (hall (n, t) (mem_of_lookup_eq_some s1 n t hl1)).symm
      | none =>
        cases hl2 : s2.lookup n with
        | none => rfl
        | some t =>
          exfalso
          have hsub := keys_subset_of_pointwise s1 s2 hall
          have hsp := h1.subperm hsub
          have hlenk : (s2.map Prod.fst).length ≤ (s1.map Prod.fst).length := by
            simp [hlen]
          have hperm := hsp.perm_of_length_le hlenk
          have hmem2 : n ∈ s2.map Prod.fst :=
            (lookup_isSome_iff_mem_keys s2 n).mp (by rw [hl2]; rfl)
          have hmem1 : n ∈ s1.map Prod.fst := hperm.mem_iff.mpr hmem2
          have := (lookup_isSome_iff_mem_keys s1 n).mpr hmem1
          rw [hl1] at this
          cases this
    · intro hall e he
      rw [← hall e.1]
      exact lookup_eq_some_of_mem s1 e.1 e.2 h1 he

/-- Scenarios that agree as mappings produce the same package-version hash
string: the sorted key lists coincide and every looked-up identity agrees. -/
theorem pkg_hash_eq_of_pointwise (s1 s2 : Scenario)
    (h1 : (s1.map Prod.fst).Nodup) (h2 : (s2.map Prod.fst).Nodup)
    (hall : ∀ n, s1.lookup n = s2.lookup n) :
    scenarioHashStringPkg s1 = scenarioHashStringPkg s2 := by
  have hiff : ∀ m, m ∈ s1.map Prod.fst ↔ m ∈ s2.map Prod.fst := by
    intro m
    rw [← lookup_isSome_iff_mem_keys, ← lookup_isSome_iff_mem_keys, hall m]
  have hperm := (List.perm_ext_iff_of_nodup h1 h2).mpr hiff
  have htransI : IsTrans String (fun a b => pyStrLe a b = true) :=
    ⟨fun a b c => charListLe_trans a.data b.data c.data⟩
  have htotalI : IsTotal String (fun a b => pyStrLe a b = true) :=
    ⟨fun a b => charListLe_total a.data b.data⟩
  have hantiI : IsAntisymm String (fun a b => pyStrLe a b = true) :=
    ⟨pyStrLe_antisymm⟩
  have hsorted : (s1.map Prod.fst).insertionSort (fun a b => pyStrLe a b = true)
      = (s2.map Prod.fst).insertionSort (fun a b => pyStrLe a b = true) := by
    refine @List.eq_of_perm_of_sorted String (fun a b => pyStrLe a b = true) hantiI _ _ ?_ ?_ ?_
    · exact ((List.perm_insertionSort _ _).trans hperm).trans
        (List.perm_insertionSort _ _).symm
    · exact @List.sorted_insertionSort String _ (fun _ _ => inferInstance) htotalI htransI _
    · exact @List.sorted_insertionSort String _ (fun _ _ => inferInstance) htotalI htransI _
  rw [scenarioHashStringPkg, scenarioHashStringPkg, hsorted]
  have hfun : (fun (acc : String) (name : String) =>
        match s1.lookup name with
        | some t => acc ++ name ++ "," ++ shortIdentifier t ++ "|"
        | none => acc)
      = (fun (acc : String) (name : String) =>
        match s2.lookup name with
        | some t => acc ++ name ++ "," ++ shortIdentifier t ++ "|"
        | none => acc) := by
    funext acc name
    rw [hall name]
  rw [hfun]

/-- C8 counterexample: the same two-character mapping inserted in the two
possible orders — `Scenario.__eq__` deems the scenarios equal, yet the root
version's `__hash__` builds different strings from them, so the root hash is
not a function of the (name, identity) multiset and equal hashes are not
guaranteed. -/
theorem scenario_hash_insertion_order_counterexample :
    scenarioEq [("A", .Knight), ("B", .Knave)] [("B", .Knave), ("A", .Knight)] = .ok true
    ∧ scenarioEq [("B", .Knave), ("A", .Knight)] [("A", .Knight), ("B", .Knave)] = .ok true
    ∧ scenarioHashStringRoot [("A", .Knight), ("B", .Knave)]
      ≠ scenarioHashStringRoot [("B", .Knave), ("A", .Knight)] := by decide

/-- C8 amended: with distinct keys, `Scenario.__eq__` returns `True` exactly
when the two scenarios assign identical identities to identical name sets
(pointwise equal lookups), and the package version's sorted `__hash__`
string — unlike the root version's — depends only on that mapping, so equal
scenarios get equal package hashes regardless of insertion order. -/
theorem scenario_eq_multiset_and_pkg_hash (s1 s2 : Scenario)
    (h1 : (s1.map Prod.fst).Nodup) (h2 : (s2.map Prod.fst).Nodup) :
    (scenarioEq s1 s2 = .ok true ↔ ∀ n, s1.lookup n = s2.lookup n)
    ∧ (scenarioEq s1 s2 = .ok true →
        scenarioHashStringPkg s1 = scenarioHashStringPkg s2) := by
  refine ⟨scenarioEq_ok_true_iff s1 s2 h1 h2, fun heq => ?_⟩
  exact pkg_hash_eq_of_pointwise s1 s2 h1 h2
    ((scenarioEq_ok_true_iff s1 s2 h1 h2).mp heq)

/-- C8 amended witness: the two insertion orders of the counterexample have
pointwise-equal lookups and identical package hash strings. -/
theorem scenario_eq_multiset_and_pkg_hash_witness :
    (scenarioEq [("A", .Knight), ("B", .Knave)] [("B", .Knave), ("A", .Knight)] = .ok true
      ↔ ∀ n, (([("A", .Knight), ("B", .Knave)] : Scenario).lookup n
          = ([("B", .Knave), ("A", .Knight)] : Scenario).lookup n))
    ∧ (scenarioEq [("A", .Knight), ("B", .Knave)] [("B", .Knave), ("A", .Knight)] = .ok true →
        scenarioHashStringPkg [("A", .Knight), ("B", .Knave)]
          = scenarioHashStringPkg [("B", .Knave), ("A", .Knight)]) :=
  scenario_eq_multiset_and_pkg_hash [("A", .Knight), ("B", .Knave)]
    [("B", .Knave), ("A", .Knight)] (by decide) (by decide)

end PuzzleGen
